import Mathlib

/-!
# Verification of the health-stats pipeline (`health-stats.js`)

Shallow embedding of the client-side health-card pipeline of this repository:
the freshness check, the data validation, the qualitative-label classifiers,
the duration formatter, the render function and the top-level load routine of
`health-stats.js`, together with the mirror `validateData` of the repository's
test script `test-health-stats.js`.

JS numbers are modelled as rationals (`ℚ`); absent / `null` / `undefined`
fields as `Option`; the JS built-ins the code calls (`Date` parsing,
`toLocaleDateString`, `toLocaleString`, number stringification) as an
explicit environment of functions, since they are not code of this
repository.  `Math.floor` is `Int.floor`; `Math.round` rounds half toward
positive infinity, i.e. `⌊x + 1/2⌋`.
-/

/-- A (text, color) pair as returned by the four classifier functions. -/
structure QualityLabel where
  text : String
  color : String
deriving DecidableEq, Repr

/-- `dailyStats.sleep` : `{score, duration, deepSleep, remSleep}`, all optional. -/
structure SleepStats where
  score : Option ℚ
  duration : Option ℚ
  deepSleep : Option ℚ
  remSleep : Option ℚ
deriving DecidableEq, Repr

/-- `dailyStats.energy` : `{score}`, optional. -/
structure EnergyStats where
  score : Option ℚ
deriving DecidableEq, Repr

/-- `dailyStats.heartRate` : `{resting, average}`, both optional. -/
structure HeartRateStats where
  resting : Option ℚ
  average : Option ℚ
deriving DecidableEq, Repr

/-- `dailyStats.activity` : `{steps, activeMinutes, calories}`, all optional. -/
structure ActivityStats where
  steps : Option ℚ
  activeMinutes : Option ℚ
  calories : Option ℚ
deriving DecidableEq, Repr

/-- `dailyStats.stress` : `{average}`, optional. -/
structure StressStats where
  average : Option ℚ
deriving DecidableEq, Repr

/-- The optional `dailyStats` mapping with its five optional metric groups. -/
structure DailyStats where
  sleep : Option SleepStats
  energy : Option EnergyStats
  heartRate : Option HeartRateStats
  activity : Option ActivityStats
  stress : Option StressStats
deriving DecidableEq, Repr

/-- The optional `weeklyTrends` mapping of five optional numeric averages. -/
structure WeeklyTrends where
  averageSleepScore : Option ℚ
  averageEnergyScore : Option ℚ
  averageSleepDuration : Option ℚ
  averageRestingHR : Option ℚ
  averageSteps : Option ℚ
deriving DecidableEq, Repr

/-- A fetched health-data document (`health-data.json`): `lastUpdated` is a raw
timestamp string that may be absent, `dailyStats` and `weeklyTrends` are both
optional mappings. -/
structure HealthData where
  lastUpdated : Option String
  dailyStats : Option DailyStats
  weeklyTrends : Option WeeklyTrends
deriving DecidableEq, Repr

/-- JS `Math.round`: rounds half toward positive infinity. -/
def jsRound (q : ℚ) : ℤ := ⌊q + 1/2⌋

/-- JS truthiness of an optional string (`!data.lastUpdated`):
`undefined` and the empty string are falsy. -/
def jsStrFalsy : Option String → Bool
  | none => true
  | some s => s = ""

/-- The JS built-ins used by the pipeline, which are environment, not code of
this repository: `parseDate` is `new Date(s).getTime()` in ms since the epoch
(`none` = `NaN`, i.e. an unparseable timestamp); `formatUpdateDate` is
`new Date(lastUpdated).toLocaleDateString('en-US', …)`; `numToStr` is JS
number-to-string interpolation; `localeNum` is `Number.prototype.toLocaleString`. -/
structure JsEnv where
  parseDate : String → Option ℚ
  formatUpdateDate : Option String → String
  numToStr : ℚ → String
  localeNum : ℚ → String

namespace HealthStats

/-- `this.maxDataAgeHours = 48` set in the constructor. -/
def maxDataAgeHours : ℚ := 48

/-- Result of `checkDataFreshness`: `hoursSinceUpdate` is `Math.round` of the
floating age in hours, or `null` on the two early-return paths. -/
structure FreshnessResult where
  isFresh : Bool
  message : String
  hoursSinceUpdate : Option ℤ
deriving DecidableEq, Repr

/-- `checkDataFreshness(data)`: fails closed on a missing (or falsy) timestamp
and on an unparseable one; otherwise the age in floating hours is
`(nowUtc - lastUpdateUtc) / (1000*60*60)` and the data is fresh iff
`hoursSinceUpdate <= this.maxDataAgeHours`.  `parse` is the `Date` parser from
the JS environment and `now` is `Date.now()` in ms. -/
def checkDataFreshness (parse : String → Option ℚ) (now : ℚ) (data : HealthData) :
    FreshnessResult :=
  if jsStrFalsy data.lastUpdated then
    { isFresh := false
      message := "No timestamp found in data"
      hoursSinceUpdate := none }
  else
    match data.lastUpdated with
    | none =>
        { isFresh := false
          message := "No timestamp found in data"
          hoursSinceUpdate := none }
    | some raw =>
      match parse raw with
      | none =>
          { isFresh := false
            message := "Invalid timestamp: " ++ raw
            hoursSinceUpdate := none }
      | some lastUpdateUtc =>
        let hoursSinceUpdate : ℚ := (now - lastUpdateUtc) / (1000 * 60 * 60)
        let isFresh : Bool := hoursSinceUpdate ≤ maxDataAgeHours
        { isFresh := isFresh
          message :=
            if isFresh then
              "Data is " ++ toString (jsRound hoursSinceUpdate) ++ " hours old"
            else
              "Data is " ++ toString (jsRound hoursSinceUpdate) ++
                " hours old (max: 48)"
          hoursSinceUpdate := some (jsRound hoursSinceUpdate) }

/-- Legacy wrapper `isDataFresh`. -/
def isDataFresh (parse : String → Option ℚ) (now : ℚ) (data : HealthData) : Bool :=
  (checkDataFreshness parse now data).isFresh

/-- Result of `validateData`. -/
structure ValidationResult where
  isValid : Bool
  message : String
  availableData : List String
deriving DecidableEq, Repr

/-- The default for `data.dailyStats || {}`. -/
def emptyDaily : DailyStats :=
  { sleep := none, energy := none, heartRate := none, activity := none, stress := none }

/-- `validateData(data)` of `health-stats.js`: checks presence (`!= null`) of
`sleep.score`, `heartRate.resting`, `activity.steps` and `energy.score`
(note: no stress check in this file), collects the found group names in push
order, and is valid iff at least one was found. -/
def validateData (data : HealthData) : ValidationResult :=
  let dailyStats := data.dailyStats.getD emptyDaily
  let hasSleep := ((dailyStats.sleep).bind (fun g => g.score)).isSome
  let hasHeartRate := ((dailyStats.heartRate).bind (fun g => g.resting)).isSome
  let hasActivity := ((dailyStats.activity).bind (fun g => g.steps)).isSome
  let hasEnergy := ((dailyStats.energy).bind (fun g => g.score)).isSome
  let availableData : List String :=
    (if hasSleep then ["sleep"] else []) ++
    (if hasHeartRate then ["heart rate"] else []) ++
    (if hasActivity then ["activity"] else []) ++
    (if hasEnergy then ["energy"] else [])
  let isValid := availableData.length > 0
  { isValid := isValid
    message :=
      if isValid then
        "Available data: " ++ String.intercalate ", " availableData
      else
        "No valid health metrics found in data"
    availableData := availableData }

/-- Legacy wrapper `hasValidData`. -/
def hasValidData (data : HealthData) : Bool := (validateData data).isValid

/-- `getSleepQuality(score)`. -/
def getSleepQuality (score : ℚ) : QualityLabel :=
  if score ≥ 80 then { text := "Excellent", color := "#10b981" }
  else if score ≥ 70 then { text := "Good", color := "#3b82f6" }
  else if score ≥ 60 then { text := "Fair", color := "#f59e0b" }
  else { text := "Poor", color := "#ef4444" }

/-- `getEnergyLevel(score)`. -/
def getEnergyLevel (score : ℚ) : QualityLabel :=
  if score ≥ 80 then { text := "High Energy", color := "#10b981" }
  else if score ≥ 70 then { text := "Good", color := "#3b82f6" }
  else if score ≥ 60 then { text := "Moderate", color := "#f59e0b" }
  else { text := "Low", color := "#ef4444" }

/-- `getHeartRateStatus(resting)`. -/
def getHeartRateStatus (resting : ℚ) : QualityLabel :=
  if resting < 60 then { text := "Athletic", color := "#10b981" }
  else if resting ≤ 70 then { text := "Excellent", color := "#3b82f6" }
  else if resting ≤ 80 then { text := "Good", color := "#f59e0b" }
  else { text := "Above Average", color := "#ef4444" }

/-- `getStressLevel(average)`. -/
def getStressLevel (average : ℚ) : QualityLabel :=
  if average ≤ 25 then { text := "Very Low", color := "#10b981" }
  else if average ≤ 50 then { text := "Low", color := "#3b82f6" }
  else if average ≤ 75 then { text := "Moderate", color := "#f59e0b" }
  else { text := "High", color := "#ef4444" }

/-- `formatTime(hours)`: `h = Math.floor(hours)`, `m = Math.round((hours-h)*60)`,
rendered as `"${h}h ${m}m"` with no carry normalization. -/
def formatTime (hours : ℚ) : String :=
  let h : ℤ := ⌊hours⌋
  let m : ℤ := jsRound ((hours - h) * 60)
  toString h ++ "h " ++ toString m ++ "m"

end HealthStats

namespace HealthTest

/-- `validateData(data)` of `test-health-stats.js`: same shape as the browser
version but checks five groups, including `stress.average`, and pushes the
camel-case names `sleep`, `heartRate`, `activity`, `energy`, `stress`. -/
def validateData (data : HealthData) : HealthStats.ValidationResult :=
  let dailyStats := data.dailyStats.getD HealthStats.emptyDaily
  let availableData : List String :=
    (if ((dailyStats.sleep).bind (fun g => g.score)).isSome then ["sleep"] else []) ++
    (if ((dailyStats.heartRate).bind (fun g => g.resting)).isSome then ["heartRate"] else []) ++
    (if ((dailyStats.activity).bind (fun g => g.steps)).isSome then ["activity"] else []) ++
    (if ((dailyStats.energy).bind (fun g => g.score)).isSome then ["energy"] else []) ++
    (if ((dailyStats.stress).bind (fun g => g.average)).isSome then ["stress"] else [])
  { isValid := availableData.length > 0
    message :=
      if availableData.length > 0 then
        "Found " ++ toString availableData.length ++ " data types: " ++
          String.intercalate ", " availableData
      else
        "No valid data found"
    availableData := availableData }

end HealthTest

namespace HealthStats

/-- `this.formatTime(x)` applied to a possibly-absent field: the source calls
`formatTime` unconditionally on `dailyStats.sleep.duration`, so an absent
duration flows through `Math.floor`/`Math.round` as `NaN` and renders as
`"NaNh NaNm"`. -/
def formatTimeOpt : Option ℚ → String
  | some x => formatTime x
  | none => "NaNh NaNm"

/-- The sleep card (`hasSleep ? … : ''` block of `renderStats`), with the
`deepSleep != null && remSleep != null` detail gate. -/
def sleepCard (env : JsEnv) (dailyStats : Option DailyStats) : String :=
  match dailyStats.bind (fun d => d.sleep) with
  | none => ""
  | some sl =>
    match sl.score with
    | none => ""
    | some sc =>
      let q := getSleepQuality sc
      "<div class=\"health-stat\"><div class=\"stat-icon\">😴</div><div class=\"stat-content\">" ++
      "<div class=\"stat-label\">Sleep Score</div>" ++
      "<div class=\"stat-value\" style=\"color: " ++ q.color ++ "\">" ++ env.numToStr sc ++ "</div>" ++
      "<div class=\"stat-meta\">" ++ q.text ++ " • " ++ formatTimeOpt sl.duration ++ "</div>" ++
      (match sl.deepSleep, sl.remSleep with
       | some dp, some rm =>
         "<div class=\"stat-detail\"><span>Deep: " ++ formatTime dp ++
           "</span><span>REM: " ++ formatTime rm ++ "</span></div>"
       | _, _ => "") ++
      "</div></div>"

/-- The energy card (`hasEnergy ? … : ''` block of `renderStats`). -/
def energyCard (env : JsEnv) (dailyStats : Option DailyStats) : String :=
  match dailyStats.bind (fun d => d.energy) with
  | none => ""
  | some en =>
    match en.score with
    | none => ""
    | some sc =>
      let q := getEnergyLevel sc
      "<div class=\"health-stat\"><div class=\"stat-icon\">⚡</div><div class=\"stat-content\">" ++
      "<div class=\"stat-label\">Energy Score</div>" ++
      "<div class=\"stat-value\" style=\"color: " ++ q.color ++ "\">" ++ env.numToStr sc ++ "</div>" ++
      "<div class=\"stat-meta\">" ++ q.text ++ "</div>" ++
      "</div></div>"

/-- The heart-rate card (`hasHeartRate ? … : ''` block of `renderStats`): the
`Avg:` detail is gated by the JS truthiness of `dailyStats.heartRate.average`
(` ${dailyStats.heartRate.average ? … : ''}`), so an average of `0` is falsy
and renders nothing, exactly like an absent average. -/
def heartRateCard (env : JsEnv) (dailyStats : Option DailyStats) : String :=
  match dailyStats.bind (fun d => d.heartRate) with
  | none => ""
  | some hr =>
    match hr.resting with
    | none => ""
    | some r =>
      let st := getHeartRateStatus r
      "<div class=\"health-stat\"><div class=\"stat-icon\">❤️</div><div class=\"stat-content\">" ++
      "<div class=\"stat-label\">Resting Heart Rate</div>" ++
      "<div class=\"stat-value\" style=\"color: " ++ st.color ++ "\">" ++ env.numToStr r ++
        " <span class=\"unit\">bpm</span></div>" ++
      "<div class=\"stat-meta\">" ++ st.text ++ "</div>" ++
      (match hr.average with
       | some a =>
         if a = 0 then ""
         else "<div class=\"stat-detail\">Avg: " ++ env.numToStr a ++ " bpm</div>"
       | none => "") ++
      "</div></div>"

/-- The steps card (`hasActivity ? … : ''` block of `renderStats`):
`activeMinutes` and `calories` are each gated by JS truthiness
(`${dailyStats.activity.activeMinutes ? … : ''}` and likewise for calories),
so a value of `0` renders nothing. -/
def activityCard (env : JsEnv) (dailyStats : Option DailyStats) : String :=
  match dailyStats.bind (fun d => d.activity) with
  | none => ""
  | some act =>
    match act.steps with
    | none => ""
    | some st =>
      "<div class=\"health-stat\"><div class=\"stat-icon\">👟</div><div class=\"stat-content\">" ++
      "<div class=\"stat-label\">Steps</div>" ++
      "<div class=\"stat-value\">" ++ env.localeNum st ++ "</div>" ++
      (match act.activeMinutes with
       | some am =>
         if am = 0 then ""
         else "<div class=\"stat-meta\">" ++ env.numToStr am ++ " active min</div>"
       | none => "") ++
      (match act.calories with
       | some cal =>
         if cal = 0 then ""
         else "<div class=\"stat-detail\">" ++ env.numToStr cal ++ " cal</div>"
       | none => "") ++
      "</div></div>"

/-- The stress card (`hasStress ? … : ''` block of `renderStats`). -/
def stressCard (env : JsEnv) (dailyStats : Option DailyStats) : String :=
  match dailyStats.bind (fun d => d.stress) with
  | none => ""
  | some stg =>
    match stg.average with
    | none => ""
    | some a =>
      let lv := getStressLevel a
      "<div class=\"health-stat\"><div class=\"stat-icon\">🧘</div><div class=\"stat-content\">" ++
      "<div class=\"stat-label\">Stress Level</div>" ++
      "<div class=\"stat-value\" style=\"color: " ++ lv.color ++ "\">" ++ env.numToStr a ++
        " <span class=\"unit\">/100</span></div>" ++
      "<div class=\"stat-meta\">" ++ lv.text ++ "</div>" ++
      "</div></div>"

/-- One `weeklyTrends` item (`${trends.x != null ? … : ''}`). -/
def trendItem (label value : String) : String :=
  "<div class=\"trend-item\"><span class=\"trend-label\">" ++ label ++
    "</span><span class=\"trend-value\">" ++ value ++ "</span></div>"

/-- The 7-day-averages block (`${weeklyTrends ? … : ''}`): rendered at all only
when the `weeklyTrends` mapping is present, each of the five averages then
independently gated by `!= null`. -/
def trendsBlock (env : JsEnv) (weeklyTrends : Option WeeklyTrends) : String :=
  match weeklyTrends with
  | none => ""
  | some wt =>
    "<div class=\"health-trends\"><div class=\"trend-title\">7-Day Averages</div>" ++
    "<div class=\"trend-grid\">" ++
    (match wt.averageSleepScore with
     | some v => trendItem "Sleep Score" (env.numToStr v)
     | none => "") ++
    (match wt.averageEnergyScore with
     | some v => trendItem "Energy Score" (env.numToStr v)
     | none => "") ++
    (match wt.averageSleepDuration with
     | some v => trendItem "Sleep Duration" (formatTime v)
     | none => "") ++
    (match wt.averageRestingHR with
     | some v => trendItem "Resting HR" (env.numToStr v ++ " bpm")
     | none => "") ++
    (match wt.averageSteps with
     | some v => trendItem "Daily Steps" (env.localeNum v)
     | none => "") ++
    "</div></div>"

/-- `renderStats(data)`: the full innerHTML written to the container — header
with the locale-formatted `lastUpdated`, the grid of the five optional metric
cards in template order, then the optional weekly-trends block. -/
def renderStats (env : JsEnv) (data : HealthData) : String :=
  "<div class=\"health-header\"><h3>📊 Today's Health Stats</h3>" ++
  "<span class=\"last-updated\">Updated: " ++ env.formatUpdateDate data.lastUpdated ++
    "</span></div>" ++
  "<div class=\"health-grid\">" ++
  sleepCard env data.dailyStats ++
  energyCard env data.dailyStats ++
  heartRateCard env data.dailyStats ++
  activityCard env data.dailyStats ++
  stressCard env data.dailyStats ++
  "</div>" ++
  trendsBlock env data.weeklyTrends

/-- The innerHTML written by `showError(title, message)`. -/
def showErrorHtml (title message : String) : String :=
  "<div class=\"health-header\"><h3>📊 Health Stats</h3>" ++
  "<span class=\"last-updated health-error-badge\">Unavailable</span></div>" ++
  "<div class=\"health-error\"><div class=\"health-error-icon\">⚠️</div>" ++
  "<div class=\"health-error-title\">" ++ title ++ "</div>" ++
  "<div class=\"health-error-message\">" ++ message ++ "</div>" ++
  "<button class=\"health-retry-btn\">Retry</button></div>"

/-- A DOM mutation performed on the card container. -/
inductive DomWrite
  | setInnerHTML (html : String)
  | setDisplay (value : String)
deriving DecidableEq, Repr

/-- Is this write the container's innerHTML assignment? -/
def DomWrite.isInnerHTML : DomWrite → Bool
  | .setInnerHTML _ => true
  | .setDisplay _ => false

/-- `showError` performs exactly one innerHTML assignment followed by
`container.style.display = 'block'`. -/
def showErrorWrites (title message : String) : List DomWrite :=
  [.setInnerHTML (showErrorHtml title message), .setDisplay "block"]

/-- Outcome of the `fetch` + `response.json()` prefix of `loadData`:
the fetch may throw, the response may have a non-ok status, the body may fail
to parse as JSON, or a document is obtained. -/
inductive FetchOutcome
  | netError (message : String)
  | httpError (status : Nat)
  | parseError (message : String)
  | ok (data : HealthData)
deriving DecidableEq, Repr

/-- The four terminal states of one `loadData` cycle. -/
inductive TerminalState
  | rendered (html : String)
  | stale (message : String)
  | invalid (message : String)
  | loadFailure (message : String)
deriving DecidableEq, Repr

/-- The body of `loadData`'s `try` block as an `Except` computation: a thrown
error (`throw new Error` on `!response.ok`, a fetch rejection, a JSON parse
rejection) is `Except.error`; otherwise the freshness gate, then the validity
gate, then `renderStats`, each branch also recording the DOM writes it
performs. -/
def loadBody (env : JsEnv) (now : ℚ) :
    FetchOutcome → Except String (TerminalState × List DomWrite)
  | .netError m => .error m
  | .httpError status => .error ("HTTP " ++ toString status ++ ": Failed to load health data")
  | .parseError m => .error m
  | .ok data =>
    let freshnessCheck := checkDataFreshness env.parseDate now data
    if !freshnessCheck.isFresh then
      .ok (.stale freshnessCheck.message,
           showErrorWrites "Data is outdated" freshnessCheck.message)
    else
      let validationResult := validateData data
      if !validationResult.isValid then
        .ok (.invalid validationResult.message,
             showErrorWrites "No data available" validationResult.message)
      else
        .ok (.rendered (renderStats env data), [.setInnerHTML (renderStats env data)])

/-- `loadData()`: the `try … catch` — any error thrown inside the body is
caught and turned into the `showError('Failed to load', …)` presentation. -/
def loadData (env : JsEnv) (now : ℚ) (f : FetchOutcome) : TerminalState × List DomWrite :=
  match loadBody env now f with
  | .ok r => r
  | .error e => (.loadFailure e, showErrorWrites "Failed to load" e)

/-- Assigning `container.innerHTML` replaces the previous content outright:
re-rendering into a container holds no dependence on what was there before. -/
def renderInto (env : JsEnv) (_container : String) (data : HealthData) : String :=
  renderStats env data

end HealthStats

/-- Replace `dailyStats.heartRate.average` (when the group is present). -/
def withHRAverage (v : Option ℚ) (data : HealthData) : HealthData :=
  { data with dailyStats := data.dailyStats.map (fun ds =>
      { ds with heartRate := ds.heartRate.map (fun hr => { hr with average := v }) }) }

/-- Replace `dailyStats.activity.activeMinutes` (when the group is present). -/
def withActiveMinutes (v : Option ℚ) (data : HealthData) : HealthData :=
  { data with dailyStats := data.dailyStats.map (fun ds =>
      { ds with activity := ds.activity.map (fun act => { act with activeMinutes := v }) }) }

/-- Replace `dailyStats.activity.calories` (when the group is present). -/
def withCalories (v : Option ℚ) (data : HealthData) : HealthData :=
  { data with dailyStats := data.dailyStats.map (fun ds =>
      { ds with activity := ds.activity.map (fun act => { act with calories := v }) }) }

/-- A snapshot whose only present metric field is `dailyStats.stress.average = 40`. -/
def stressOnly : HealthData :=
  { lastUpdated := some "2026-01-07T12:00:00Z"
    dailyStats := some
      { sleep := none, energy := none, heartRate := none, activity := none
        stress := some { average := some 40 } }
    weeklyTrends := none }

/-- A `Date` parser that fails on every string (every timestamp is `NaN`). -/
def noneParse : String → Option ℚ := fun _ => none

/-- A `Date` parser that parses every string to the epoch instant (0 ms). -/
def epochParse : String → Option ℚ := fun _ => some 0

/-- A document carrying only a timestamp. -/
def tsOnly : HealthData :=
  { lastUpdated := some "2026-01-01T00:00:00Z", dailyStats := none, weeklyTrends := none }

/-- A document with no `lastUpdated` but otherwise populated content. -/
def noTimestampDoc : HealthData :=
  { lastUpdated := none
    dailyStats := some
      { sleep := some { score := some 85, duration := some (15/2), deepSleep := some 1, remSleep := some 2 }
        energy := some { score := some 70 }
        heartRate := some { resting := some 55, average := some 68 }
        activity := some { steps := some 12000, activeMinutes := some 45, calories := some 500 }
        stress := some { average := some 30 } }
    weeklyTrends := some
      { averageSleepScore := some 80, averageEnergyScore := some 75
        averageSleepDuration := some 7, averageRestingHR := some 56, averageSteps := some 9000 } }

/-- A document with an unparseable `lastUpdated`. -/
def badTimestampDoc : HealthData :=
  { lastUpdated := some "not-a-date", dailyStats := none, weeklyTrends := none }

/-- The four-tier color palette shared by all four classifiers, from best to
worst threshold position: green, blue, amber, red. -/
def tierPalette : List String := ["#10b981", "#3b82f6", "#f59e0b", "#ef4444"]

/-- The tier texts of `getSleepQuality`, from best to worst. -/
def sleepTierTexts : List String := ["Excellent", "Good", "Fair", "Poor"]

/-- The tier texts of `getEnergyLevel`, from best to worst. -/
def energyTierTexts : List String := ["High Energy", "Good", "Moderate", "Low"]

/-- The tier texts of `getHeartRateStatus`, from best to worst. -/
def heartTierTexts : List String := ["Athletic", "Excellent", "Good", "Above Average"]

/-- The tier texts of `getStressLevel`, from best (lowest stress) to worst. -/
def stressTierTexts : List String := ["Very Low", "Low", "Moderate", "High"]

/-- C1: a snapshot whose only present metric field is
`dailyStats.stress.average = 40` is rejected by `validateData` of
`health-stats.js` (its presence checks cover only sleep, heart rate, activity
and energy — no stress check), while `validateData` of the repository's own
test script `test-health-stats.js` accepts the same snapshot as valid with
available-groups `["stress"]`, as the claim states.  The browser code thus
contradicts the repository's test mirror (and its own `renderStats`, which has
a stress card). -/
theorem validateData_stress_only_rejected :
    HealthStats.validateData stressOnly =
      { isValid := false, message := "No valid health metrics found in data",
        availableData := [] } ∧
    HealthTest.validateData stressOnly =
      { isValid := true, message := "Found 1 data types: stress",
        availableData := ["stress"] } := by
  exact ⟨rfl, rfl⟩

/-- C2: `formatTime` renders 1.5 hours as `"1h 30m"` and 0 hours as
`"0h 0m"`, but performs no carry normalization after rounding minutes, so the
input 1.999 renders as `"1h 60m"` — the rendered minutes can reach 60,
contradicting the carry-normalization part of the claim. -/
theorem formatTime_minute_carry :
    HealthStats.formatTime (3/2) = "1h 30m" ∧
    HealthStats.formatTime 0 = "0h 0m" ∧
    HealthStats.formatTime (1999/1000) = "1h 60m" := by
  have f1 : (⌊(3/2 : ℚ)⌋ : ℤ) = 1 := by norm_num [Int.floor_eq_iff]
  have f2 : (⌊(0 : ℚ)⌋ : ℤ) = 0 := by norm_num
  have f3 : (⌊(1999/1000 : ℚ)⌋ : ℤ) = 1 := by norm_num [Int.floor_eq_iff]
  have r1 : jsRound (((3:ℚ)/2 - ((1:ℤ) : ℚ)) * 60) = 30 := by
    unfold jsRound; norm_num [Int.floor_eq_iff]
  have r2 : jsRound (((0:ℚ) - ((0:ℤ) : ℚ)) * 60) = 0 := by
    unfold jsRound; norm_num
  have r3 : jsRound (((1999:ℚ)/1000 - ((1:ℤ) : ℚ)) * 60) = 60 := by
    unfold jsRound; norm_num [Int.floor_eq_iff]
  refine ⟨?_, ?_, ?_⟩ <;>
    simp only [HealthStats.formatTime, f1, f2, f3, r1, r2, r3] <;> rfl

/-- C3: for every snapshot with a parseable `lastUpdated`, `checkDataFreshness`
computes the floating-hours age `(now - parsed) / (1000*60*60)` (ms), and is
fresh iff that age is `≤ 48` (the default `maxDataAgeHours`): an age of
exactly 48.0 hours is fresh (inclusive boundary), 48.1 hours is not fresh,
and a negative age (future timestamp) is fresh — there is no lower bound. -/
theorem checkDataFreshness_age_boundary :
    (∀ (parse : String → Option ℚ) (now : ℚ) (data : HealthData) (raw : String) (t : ℚ),
      data.lastUpdated = some raw → raw ≠ "" → parse raw = some t →
        ((HealthStats.checkDataFreshness parse now data).isFresh = true ↔
          (now - t) / (1000 * 60 * 60) ≤ 48)) ∧
    (HealthStats.checkDataFreshness epochParse (48 * 3600000) tsOnly).isFresh = true ∧
    (HealthStats.checkDataFreshness epochParse (481 * 360000) tsOnly).isFresh = false ∧
    (HealthStats.checkDataFreshness epochParse (-3600000) tsOnly).isFresh = true := by
  have gen : ∀ (parse : String → Option ℚ) (now : ℚ) (data : HealthData) (raw : String) (t : ℚ),
      data.lastUpdated = some raw → raw ≠ "" → parse raw = some t →
        ((HealthStats.checkDataFreshness parse now data).isFresh = true ↔
          (now - t) / (1000 * 60 * 60) ≤ 48) := by
    intro parse now data raw t hraw hne hparse
    simp [HealthStats.checkDataFreshness, hraw, hparse, jsStrFalsy, hne,
      HealthStats.maxDataAgeHours]
  refine ⟨gen, ?_, ?_, ?_⟩
  · exact (gen epochParse (48 * 3600000) tsOnly "2026-01-01T00:00:00Z" 0 rfl
      (by decide) rfl).mpr (by norm_num)
  · have h := gen epochParse (481 * 360000) tsOnly "2026-01-01T00:00:00Z" 0 rfl
      (by decide) rfl
    rw [Bool.eq_false_iff]
    intro hb
    have hle := h.mp hb
    norm_num at hle
  · exact (gen epochParse (-3600000) tsOnly "2026-01-01T00:00:00Z" 0 rfl
      (by decide) rfl).mpr (by norm_num)

/-- C3 witness: a concrete application of the boundary theorem — with the
epoch parser and `now` exactly 48 hours (in ms) past the parsed instant, the
snapshot is classified fresh. -/
theorem checkDataFreshness_age_boundary_witness :
    (HealthStats.checkDataFreshness epochParse (48 * 3600000) tsOnly).isFresh = true :=
  (checkDataFreshness_age_boundary.1 epochParse (48 * 3600000) tsOnly
    "2026-01-01T00:00:00Z" 0 rfl (by decide) rfl).mpr (by norm_num)

/-- C4: `checkDataFreshness` fails closed on the timestamp — a snapshot with
no `lastUpdated` is not fresh with message `"No timestamp found in data"`
regardless of any other content, and a snapshot whose non-empty `lastUpdated`
does not parse to a valid instant is not fresh with message
`"Invalid timestamp: <raw value>"`, which contains the raw invalid string. -/
theorem checkDataFreshness_fails_closed :
    ∀ (parse : String → Option ℚ) (now : ℚ) (data : HealthData),
      (data.lastUpdated = none →
        HealthStats.checkDataFreshness parse now data =
          { isFresh := false, message := "No timestamp found in data",
            hoursSinceUpdate := none }) ∧
      (∀ raw, data.lastUpdated = some raw → raw ≠ "" → parse raw = none →
        HealthStats.checkDataFreshness parse now data =
          { isFresh := false, message := "Invalid timestamp: " ++ raw,
            hoursSinceUpdate := none }) := by
  intro parse now data
  constructor
  · intro h
    simp [HealthStats.checkDataFreshness, h, jsStrFalsy]
  · intro raw hraw hne hparse
    simp [HealthStats.checkDataFreshness, hraw, hne, hparse, jsStrFalsy]

/-- C4 witness: the fail-closed theorem applied to a document with rich
content but no timestamp, and to a document whose timestamp string the date
parser rejects. -/
theorem checkDataFreshness_fails_closed_witness :
    HealthStats.checkDataFreshness noneParse 0 noTimestampDoc =
      { isFresh := false, message := "No timestamp found in data",
        hoursSinceUpdate := none } ∧
    HealthStats.checkDataFreshness noneParse 0 badTimestampDoc =
      { isFresh := false, message := "Invalid timestamp: not-a-date",
        hoursSinceUpdate := none } :=
  ⟨(checkDataFreshness_fails_closed noneParse 0 noTimestampDoc).1 rfl,
   (checkDataFreshness_fails_closed noneParse 0 badTimestampDoc).2
     "not-a-date" rfl (by decide) rfl⟩

/-- C5: `getHeartRateStatus` classifies by the exact boundaries — strictly
below 60 is Athletic, from 60 up to 70 inclusive is Excellent, above 70 up to
80 inclusive is Good, and above 80 is "Above Average" — with the six claimed
sample points 58, 60, 70, 71, 80, 81 landing as stated. -/
theorem getHeartRateStatus_boundaries :
    (∀ v : ℚ,
      ((HealthStats.getHeartRateStatus v).text = "Athletic" ↔ v < 60) ∧
      ((HealthStats.getHeartRateStatus v).text = "Excellent" ↔ 60 ≤ v ∧ v ≤ 70) ∧
      ((HealthStats.getHeartRateStatus v).text = "Good" ↔ 70 < v ∧ v ≤ 80) ∧
      ((HealthStats.getHeartRateStatus v).text = "Above Average" ↔ 80 < v)) ∧
    (HealthStats.getHeartRateStatus 58).text = "Athletic" ∧
    (HealthStats.getHeartRateStatus 60).text = "Excellent" ∧
    (HealthStats.getHeartRateStatus 70).text = "Excellent" ∧
    (HealthStats.getHeartRateStatus 71).text = "Good" ∧
    (HealthStats.getHeartRateStatus 80).text = "Good" ∧
    (HealthStats.getHeartRateStatus 81).text = "Above Average" := by
  have gen : ∀ v : ℚ,
      ((HealthStats.getHeartRateStatus v).text = "Athletic" ↔ v < 60) ∧
      ((HealthStats.getHeartRateStatus v).text = "Excellent" ↔ 60 ≤ v ∧ v ≤ 70) ∧
      ((HealthStats.getHeartRateStatus v).text = "Good" ↔ 70 < v ∧ v ≤ 80) ∧
      ((HealthStats.getHeartRateStatus v).text = "Above Average" ↔ 80 < v) := by
    intro v
    unfold HealthStats.getHeartRateStatus
    split_ifs with h1 h2 h3
    · exact ⟨iff_of_true rfl h1,
        iff_of_false (by decide) (by rintro ⟨h, -⟩; linarith),
        iff_of_false (by decide) (by rintro ⟨h, -⟩; linarith),
        iff_of_false (by decide) (by intro h; linarith)⟩
    · exact ⟨iff_of_false (by decide) h1,
        iff_of_true rfl ⟨le_of_not_lt h1, h2⟩,
        iff_of_false (by decide) (by rintro ⟨h, -⟩; linarith),
        iff_of_false (by decide) (by intro h; linarith)⟩
    · exact ⟨iff_of_false (by decide) h1,
        iff_of_false (by decide) (by rintro ⟨-, h⟩; exact h2 h),
        iff_of_true rfl ⟨not_le.mp h2, h3⟩,
        iff_of_false (by decide) (not_lt.mpr h3)⟩
    · exact ⟨iff_of_false (by decide) h1,
        iff_of_false (by decide) (by rintro ⟨-, h⟩; exact h2 h),
        iff_of_false (by decide) (by rintro ⟨-, h⟩; exact h3 h),
        iff_of_true rfl (not_le.mp h3)⟩
  refine ⟨gen, ?_, ?_, ?_, ?_, ?_, ?_⟩
  · exact (gen 58).1.mpr (by norm_num)
  · exact (gen 60).2.1.mpr ⟨by norm_num, by norm_num⟩
  · exact (gen 70).2.1.mpr ⟨by norm_num, by norm_num⟩
  · exact (gen 71).2.2.1.mpr ⟨by norm_num, by norm_num⟩
  · exact (gen 80).2.2.1.mpr ⟨by norm_num, by norm_num⟩
  · exact (gen 81).2.2.2.mpr (by norm_num)

/-- C6 counterexample: for a resting heart rate of 75 the derived label text
is `"Good"` but its color is the amber tier `#f59e0b`, not the blue tier
`#3b82f6` — so a "Good" label is not always paired with blue. -/
theorem good_is_amber_for_heart_rate :
    (HealthStats.getHeartRateStatus 75).text = "Good" ∧
    (HealthStats.getHeartRateStatus 75).color = "#f59e0b" ∧
    (HealthStats.getHeartRateStatus 75).color ≠ "#3b82f6" := by
  have e : HealthStats.getHeartRateStatus 75 = { text := "Good", color := "#f59e0b" } := by
    unfold HealthStats.getHeartRateStatus
    rw [if_neg (by norm_num), if_neg (by norm_num), if_pos (by norm_num)]
  rw [e]
  exact ⟨rfl, rfl, by decide⟩

/-- C6 amended: every classifier draws its colors from the same four-tier
palette green → blue → amber → red, matched positionally to its ordered tier
texts — but the tier pairs with threshold position, not with label text: the
text `"Good"` names the second (blue) tier for sleep and energy yet the third
(amber) tier for heart rate, so "good is always blue" fails while positional
palette consistency holds. -/
theorem tier_palette_positional :
    ∀ v : ℚ,
      (∃ i : Fin 4, HealthStats.getSleepQuality v =
        { text := sleepTierTexts.get i, color := tierPalette.get i }) ∧
      (∃ i : Fin 4, HealthStats.getEnergyLevel v =
        { text := energyTierTexts.get i, color := tierPalette.get i }) ∧
      (∃ i : Fin 4, HealthStats.getHeartRateStatus v =
        { text := heartTierTexts.get i, color := tierPalette.get i }) ∧
      (∃ i : Fin 4, HealthStats.getStressLevel v =
        { text := stressTierTexts.get i, color := tierPalette.get i }) ∧
      ((HealthStats.getSleepQuality v).text = "Good" ↔
        (HealthStats.getSleepQuality v).color = "#3b82f6") ∧
      ((HealthStats.getEnergyLevel v).text = "Good" ↔
        (HealthStats.getEnergyLevel v).color = "#3b82f6") ∧
      ((HealthStats.getHeartRateStatus v).text = "Good" ↔
        (HealthStats.getHeartRateStatus v).color = "#f59e0b") := by
  intro v
  refine ⟨?_, ?_, ?_, ?_, ?_, ?_, ?_⟩
  · unfold HealthStats.getSleepQuality
    split_ifs <;>
      first
        | exact ⟨0, rfl⟩
        | exact ⟨1, rfl⟩
        | exact ⟨2, rfl⟩
        | exact ⟨3, rfl⟩
  · unfold HealthStats.getEnergyLevel
    split_ifs <;>
      first
        | exact ⟨0, rfl⟩
        | exact ⟨1, rfl⟩
        | exact ⟨2, rfl⟩
        | exact ⟨3, rfl⟩
  · unfold HealthStats.getHeartRateStatus
    split_ifs <;>
      first
        | exact ⟨0, rfl⟩
        | exact ⟨1, rfl⟩
        | exact ⟨2, rfl⟩
        | exact ⟨3, rfl⟩
  · unfold HealthStats.getStressLevel
    split_ifs <;>
      first
        | exact ⟨0, rfl⟩
        | exact ⟨1, rfl⟩
        | exact ⟨2, rfl⟩
        | exact ⟨3, rfl⟩
  · unfold HealthStats.getSleepQuality
    split_ifs <;> decide
  · unfold HealthStats.getEnergyLevel
    split_ifs <;> decide
  · unfold HealthStats.getHeartRateStatus
    split_ifs <;> decide

/-- C7: every `loadData` call reaches exactly one of the four terminal states
(`rendered`, `stale`, `invalid`, `loadFailure`), performs exactly one
container-content assignment on every path (no partial UI mutation), and every
exception raised inside the `try` body — a fetch rejection, a non-ok HTTP
status, a JSON parse rejection — is caught at the top level and converted to
the `loadFailure` presentation instead of propagating. -/
theorem loadData_terminal_states :
    ∀ (env : JsEnv) (now : ℚ) (f : HealthStats.FetchOutcome),
      ((∃ m, (HealthStats.loadData env now f).1 = .loadFailure m) ∨
       (∃ m, (HealthStats.loadData env now f).1 = .stale m) ∨
       (∃ m, (HealthStats.loadData env now f).1 = .invalid m) ∨
       (∃ h, (HealthStats.loadData env now f).1 = .rendered h)) ∧
      (List.countP HealthStats.DomWrite.isInnerHTML (HealthStats.loadData env now f).2 = 1) ∧
      (∀ m, HealthStats.loadData env now (.netError m) =
        (.loadFailure m, HealthStats.showErrorWrites "Failed to load" m)) ∧
      (∀ m, HealthStats.loadData env now (.parseError m) =
        (.loadFailure m, HealthStats.showErrorWrites "Failed to load" m)) ∧
      (∀ s, HealthStats.loadData env now (.httpError s) =
        (.loadFailure ("HTTP " ++ toString s ++ ": Failed to load health data"),
         HealthStats.showErrorWrites "Failed to load"
           ("HTTP " ++ toString s ++ ": Failed to load health data"))) := by
  intro env now f
  refine ⟨?_, ?_, fun m => rfl, fun m => rfl, fun s => rfl⟩
  · cases f with
    | netError m => exact Or.inl ⟨m, rfl⟩
    | httpError s => exact Or.inl ⟨_, rfl⟩
    | parseError m => exact Or.inl ⟨m, rfl⟩
    | ok data =>
      by_cases hf : (HealthStats.checkDataFreshness env.parseDate now data).isFresh = true
      · by_cases hv : (HealthStats.validateData data).isValid = true
        · refine Or.inr (Or.inr (Or.inr ⟨HealthStats.renderStats env data, ?_⟩))
          simp [HealthStats.loadData, HealthStats.loadBody, hf, hv]
        · refine Or.inr (Or.inr (Or.inl ⟨(HealthStats.validateData data).message, ?_⟩))
          simp [HealthStats.loadData, HealthStats.loadBody, hf,
            Bool.eq_false_iff.mpr hv]
      · refine Or.inr (Or.inl
          ⟨(HealthStats.checkDataFreshness env.parseDate now data).message, ?_⟩)
        simp [HealthStats.loadData, HealthStats.loadBody, Bool.eq_false_iff.mpr hf]
  · cases f with
    | netError m =>
      simp [HealthStats.loadData, HealthStats.loadBody, HealthStats.showErrorWrites,
        HealthStats.DomWrite.isInnerHTML, List.countP_cons]
    | httpError s =>
      simp [HealthStats.loadData, HealthStats.loadBody, HealthStats.showErrorWrites,
        HealthStats.DomWrite.isInnerHTML, List.countP_cons]
    | parseError m =>
      simp [HealthStats.loadData, HealthStats.loadBody, HealthStats.showErrorWrites,
        HealthStats.DomWrite.isInnerHTML, List.countP_cons]
    | ok data =>
      by_cases hf : (HealthStats.checkDataFreshness env.parseDate now data).isFresh = true
      · by_cases hv : (HealthStats.validateData data).isValid = true
        · simp [HealthStats.loadData, HealthStats.loadBody, hf, hv,
            HealthStats.DomWrite.isInnerHTML, List.countP_cons]
        · simp [HealthStats.loadData, HealthStats.loadBody, hf,
            Bool.eq_false_iff.mpr hv, HealthStats.showErrorWrites,
            HealthStats.DomWrite.isInnerHTML, List.countP_cons]
      · simp [HealthStats.loadData, HealthStats.loadBody,
          Bool.eq_false_iff.mpr hf, HealthStats.showErrorWrites,
          HealthStats.DomWrite.isInnerHTML, List.countP_cons]

/-- C9: the three secondary detail fields `heartRate.average`,
`activity.activeMinutes` and `activity.calories` are gated by JS truthiness in
`renderStats`, so a present value of `0` renders exactly the same output as an
absent field. -/
theorem zero_secondary_details_omitted :
    ∀ (env : JsEnv) (data : HealthData),
      HealthStats.renderStats env (withHRAverage (some 0) data) =
        HealthStats.renderStats env (withHRAverage none data) ∧
      HealthStats.renderStats env (withActiveMinutes (some 0) data) =
        HealthStats.renderStats env (withActiveMinutes none data) ∧
      HealthStats.renderStats env (withCalories (some 0) data) =
        HealthStats.renderStats env (withCalories none data) := by
  intro env data
  obtain ⟨lu, ds, wt⟩ := data
  refine ⟨?_, ?_, ?_⟩
  · cases ds with
    | none => rfl
    | some d =>
      obtain ⟨sl, en, hr, act, st⟩ := d
      cases hr with
      | none => rfl
      | some h =>
        obtain ⟨r, avg⟩ := h
        cases r with
        | none =>
          simp [HealthStats.renderStats, withHRAverage, HealthStats.sleepCard,
            HealthStats.energyCard, HealthStats.heartRateCard,
            HealthStats.activityCard, HealthStats.stressCard]
        | some rv =>
          simp [HealthStats.renderStats, withHRAverage, HealthStats.sleepCard,
            HealthStats.energyCard, HealthStats.heartRateCard,
            HealthStats.activityCard, HealthStats.stressCard]
  · cases ds with
    | none => rfl
    | some d =>
      obtain ⟨sl, en, hr, act, st⟩ := d
      cases act with
      | none => rfl
      | some a =>
        obtain ⟨steps, am, cal⟩ := a
        cases steps with
        | none =>
          simp [HealthStats.renderStats, withActiveMinutes, HealthStats.sleepCard,
            HealthStats.energyCard, HealthStats.heartRateCard,
            HealthStats.activityCard, HealthStats.stressCard]
        | some sv =>
          simp [HealthStats.renderStats, withActiveMinutes, HealthStats.sleepCard,
            HealthStats.energyCard, HealthStats.heartRateCard,
            HealthStats.activityCard, HealthStats.stressCard]
  · cases ds with
    | none => rfl
    | some d =>
      obtain ⟨sl, en, hr, act, st⟩ := d
      cases act with
      | none => rfl
      | some a =>
        obtain ⟨steps, am, cal⟩ := a
        cases steps with
        | none =>
          simp [HealthStats.renderStats, withCalories, HealthStats.sleepCard,
            HealthStats.energyCard, HealthStats.heartRateCard,
            HealthStats.activityCard, HealthStats.stressCard]
        | some sv =>
          simp [HealthStats.renderStats, withCalories, HealthStats.sleepCard,
            HealthStats.energyCard, HealthStats.heartRateCard,
            HealthStats.activityCard, HealthStats.stressCard]

/-- C8: `renderInto` (the `container.innerHTML = …` assignment of
`renderStats`) is a pure, deterministic function of the snapshot: the produced
model is independent of the container's prior content, and rendering the same
valid snapshot twice writes the identical model both times (so the second
render leaves the container exactly as the first did). -/
theorem renderInto_idempotent :
    ∀ (env : JsEnv) (c₁ c₂ : String) (data : HealthData),
      HealthStats.renderInto env c₁ data = HealthStats.renderInto env c₂ data ∧
      HealthStats.renderInto env (HealthStats.renderInto env c₁ data) data =
        HealthStats.renderInto env c₁ data ∧
      HealthStats.renderInto env c₁ data = HealthStats.renderStats env data :=
  fun _ _ _ _ => ⟨rfl, rfl, rfl⟩

/-- C10: `validateData` never inspects `weeklyTrends` — replacing the
`weeklyTrends` field changes neither validity nor the available-groups list —
and a snapshot with `dailyStats` absent, or with every checked per-group field
(`sleep.score`, `heartRate.resting`, `activity.steps`, `energy.score`) absent,
is invalid no matter how fully `weeklyTrends` is populated (the stress average
`sa` is arbitrary here, since this `validateData` has no stress check). -/
theorem validateData_ignores_weeklyTrends :
    ∀ (data : HealthData) (wt : Option WeeklyTrends) (lu : Option String)
      (du dp rm avg am cal sa : Option ℚ),
      HealthStats.validateData { data with weeklyTrends := wt } =
        HealthStats.validateData data ∧
      HealthStats.validateData
          { lastUpdated := lu, dailyStats := none, weeklyTrends := wt } =
        { isValid := false, message := "No valid health metrics found in data",
          availableData := [] } ∧
      HealthStats.validateData
          { lastUpdated := lu
            dailyStats := some
              { sleep := some { score := none, duration := du, deepSleep := dp, remSleep := rm }
                energy := some { score := none }
                heartRate := some { resting := none, average := avg }
                activity := some { steps := none, activeMinutes := am, calories := cal }
                stress := some { average := sa } }
            weeklyTrends := wt } =
        { isValid := false, message := "No valid health metrics found in data",
          availableData := [] } :=
  fun _ _ _ _ _ _ _ _ _ _ => ⟨rfl, rfl, rfl⟩
